import Mathlib

/-!
Verification of the geodemo run tracker against its specification.

The development shallowly embeds the core of `src/geo.ts`,
`src/run-tracker.ts` and `src/run-tracker.js` (the two live variants of
the tracker), together with the route accumulator of `src/map.ts`
(`addCoordinate` / `getRouteCoordinates` / `clearRoute` /
`showHistoryRoute`) and the persistence sink of `src/storage.ts`
(`saveRun`, newest-first `unshift`).

Modelling conventions:
- JS numbers holding wall-clock instants (`Date.now()`) are `Int`;
  geographic values (degrees, metres) are `ℝ`.
- JS truthiness on a nullable time (`if (!startTime)`) is modelled by
  `jsTruthy`: falsy when the value is absent or `0`.
- `generateId()` (an opaque unique string per run) is modelled by a
  deterministic counter carried in the state; `watchPosition` /
  `clearWatch` of the position source are modelled by a list of live
  watch handles plus a fresh-handle counter.
- The optional UI observers `onDistanceUpdate` / `onStateChange` are
  modelled as event logs appended to on every (would-be) invocation.
-/

namespace GeoDemo


/-- `Coordinate` from `geo.ts`: `[lng, lat]`, modelled as a pair
`(lng, lat)` of reals. -/
abbrev Coordinate : Type := ℝ × ℝ

/-- `toRadians` from `geo.ts`: `degrees * (Math.PI / 180)`. -/
noncomputable def toRadians (degrees : ℝ) : ℝ :=
  degrees * (Real.pi / 180)

/-- JavaScript's `Math.atan2(y, x)` on the branches the code can reach,
following the usual quadrant convention. -/
noncomputable def atan2 (y x : ℝ) : ℝ :=
  if 0 < x then Real.arctan (y / x)
  else if x < 0 ∧ 0 ≤ y then Real.arctan (y / x) + Real.pi
  else if x < 0 ∧ y < 0 then Real.arctan (y / x) - Real.pi
  else if x = 0 ∧ 0 < y then Real.pi / 2
  else if x = 0 ∧ y < 0 then -(Real.pi / 2)
  else 0

/-- The intermediate value `a` of `haversineDistance` in `geo.ts`:
`sin²(Δlat/2) + cos(lat1)·cos(lat2)·sin²(Δlng/2)`. -/
noncomputable def havA (coord1 coord2 : Coordinate) : ℝ :=
  Real.sin (toRadians (coord2.2 - coord1.2) / 2) * Real.sin (toRadians (coord2.2 - coord1.2) / 2) +
    Real.cos (toRadians coord1.2) * Real.cos (toRadians coord2.2) *
      Real.sin (toRadians (coord2.1 - coord1.1) / 2) * Real.sin (toRadians (coord2.1 - coord1.1) / 2)

/-- `haversineDistance` from `geo.ts`: great-circle distance in metres
between `coord1 = (lng1, lat1)` and `coord2 = (lng2, lat2)` with Earth
radius 6 371 000 m.  `coord[1]` of the source is the latitude, i.e. the
second component here, and `coord[0]` the longitude. -/
noncomputable def haversineDistance (coord1 coord2 : Coordinate) : ℝ :=
  let R : ℝ := 6371000
  let a := havA coord1 coord2
  let c := 2 * atan2 (Real.sqrt a) (Real.sqrt (1 - a))
  R * c

/-- The accumulation loop of `calculateTotalDistance`
(`for i = 1; i < length; i++  total += haversineDistance(c[i-1], c[i])`),
written as structural recursion over the coordinate list. -/
noncomputable def sumConsecutive : List Coordinate → ℝ
  | [] => 0
  | [_] => 0
  | c1 :: c2 :: rest => haversineDistance c1 c2 + sumConsecutive (c2 :: rest)

/-- `calculateTotalDistance` from `geo.ts`: 0 for fewer than two points,
otherwise the sum of consecutive-pair haversine distances. -/
noncomputable def calculateTotalDistance (coordinates : List Coordinate) : ℝ :=
  if coordinates.length < 2 then 0 else sumConsecutive coordinates

/-- Spec-side formula for route distance (§4.1 / §8 of the spec):
`Σ distance(p_(i-1), p_i)`, expressed as a sum over the consecutive
pairs `zip l l.tail`.  Used to compare `calculateTotalDistance` against
the specification's words. -/
noncomputable def routeDistanceSpec (l : List Coordinate) : ℝ :=
  ((l.zip l.tail).map (fun p => haversineDistance p.1 p.2)).sum

/-! ### Tracker state

The module-level mutable variables of `run-tracker.ts` / `run-tracker.js`,
together with the external collaborators the tracker drives: the route
accumulator of `map.ts`, the persistence sink of `storage.ts`, the live
geolocation watches of the position source, and the two optional UI
observers (modelled as event logs). -/

/-- `RunState` from `run-tracker.ts`. -/
inductive RunState : Type
  | stopped
  | running
  | paused
  deriving DecidableEq

/-- `Run` from `storage.ts`.  Instants are modelled as `Int`
(milliseconds); the ISO-8601 rendering of `startTime` / `endTime` is
display-only and dropped.  The opaque `id` string from `generateId()` is
modelled as the `Nat` drawn from a fresh-id counter. -/
structure Run : Type where
  id : Nat
  startTime : Int
  endTime : Int
  duration : Int
  distance : ℝ
  coordinates : List Coordinate

/-- The whole mutable world the tracker touches. -/
structure TrackerState : Type where
  /-- `state` of `run-tracker.ts`. -/
  state : RunState
  /-- `watchId` of `run-tracker.ts`. -/
  watchId : Option Nat
  /-- `startTime` of `run-tracker.ts` (`Date.now()` instant or null). -/
  startTime : Option Int
  /-- `pausedTime` of `run-tracker.ts`. -/
  pausedTime : Int
  /-- `pauseStart` of `run-tracker.ts`. -/
  pauseStart : Option Int
  /-- `currentRunId` of `run-tracker.ts`. -/
  currentRunId : Option Nat
  /-- `lastPosition` of `run-tracker.ts`, stored as `(lng, lat)`. -/
  lastPosition : Option (ℝ × ℝ)
  /-- `routeData...coordinates` of `map.ts`: the active route polyline. -/
  route : List Coordinate
  /-- `historyRouteData...coordinates` of `map.ts`. -/
  historyRoute : List Coordinate
  /-- The persistence sink of `storage.ts`, newest first. -/
  savedRuns : List Run
  /-- Live position-source subscriptions (`watchPosition` handles not yet
  passed to `clearWatch`). -/
  activeWatches : List Nat
  /-- Fresh-handle counter for `watchPosition`. -/
  nextWatchId : Nat
  /-- Fresh-id counter modelling `generateId()`. -/
  nextRunId : Nat
  /-- Log of `onStateChange` invocations. -/
  stateEvents : List RunState
  /-- Log of `onDistanceUpdate` invocations. -/
  distanceEvents : List ℝ

/-- The initial module state: everything null/empty, state `stopped`. -/
def initialState : TrackerState where
  state := RunState.stopped
  watchId := none
  startTime := none
  pausedTime := 0
  pauseStart := none
  currentRunId := none
  lastPosition := none
  route := []
  historyRoute := []
  savedRuns := []
  activeWatches := []
  nextWatchId := 0
  nextRunId := 0
  stateEvents := []
  distanceEvents := []

/-- JavaScript truthiness of a nullable numeric time: falsy when null or
`0` (so `if (!startTime)` guards both). -/
def jsTruthy : Option Int → Bool
  | none => false
  | some t => decide (t ≠ 0)

/-- The numeric value of a nullable time, read where the source has
already established truthiness (so the `0` default is never observable
on the guarded paths). -/
def theTime : Option Int → Int
  | none => 0
  | some t => t

/-- The id value of a nullable run id, read where the source has already
established non-nullness. -/
def theId : Option Nat → Nat
  | none => 0
  | some i => i

/-- `MAX_ACCURACY` of `run-tracker.ts`: readings less accurate than 30 m
are ignored. -/
def MAX_ACCURACY : ℝ := 30

/-- `MIN_MOVEMENT` of `run-tracker.ts`: movements below 3 m are treated
as GPS jitter and ignored. -/
def MIN_MOVEMENT : ℝ := 3

/-- `getState` of `run-tracker.ts`. -/
def getState (s : TrackerState) : RunState := s.state

/-- `getLastPosition` of `run-tracker.ts`. -/
def getLastPosition (s : TrackerState) : Option (ℝ × ℝ) := s.lastPosition

/-- `getRouteCoordinates` of `map.ts`: a snapshot of the active route. -/
def getRouteCoordinates (s : TrackerState) : List Coordinate := s.route

/-- `getElapsedTime` of `run-tracker.ts` / `run-tracker.js` (identical
in both): elapsed active milliseconds, with `now` the value `Date.now()`
would return.  `if (!startTime) return 0` is the JS truthiness guard. -/
def getElapsedTime (now : Int) (s : TrackerState) : Int :=
  if !jsTruthy s.startTime then 0
  else if s.state = RunState.paused ∧ jsTruthy s.pauseStart then
    theTime s.pauseStart - theTime s.startTime - s.pausedTime
  else if s.state = RunState.running then
    now - theTime s.startTime - s.pausedTime
  else 0

/-- `getCurrentDistance` of `run-tracker.ts`:
`calculateTotalDistance(getRouteCoordinates())`. -/
noncomputable def getCurrentDistance (s : TrackerState) : ℝ :=
  calculateTotalDistance (getRouteCoordinates s)

/-- `navigator.geolocation.clearWatch(watchId)` followed by
`watchId = null` — the cancellation prologue shared by `pauseTracking`
and `finishRun` (`if (watchId !== null) { clearWatch(watchId); watchId = null }`). -/
def cancelWatch (s : TrackerState) : TrackerState :=
  match s.watchId with
  | some w => { s with activeWatches := s.activeWatches.erase w, watchId := none }
  | none => s

/-- `startTracking` of `run-tracker.ts` / `run-tracker.js` (identical in
both).  `geoAvail` models the `navigator.geolocation` capability check;
`now` models `Date.now()`.  Note that the trailing
`watchId = watchPosition(...)` runs on every call, whatever the prior
state. -/
def startTracking (geoAvail : Bool) (now : Int) (s : TrackerState) : TrackerState :=
  if !geoAvail then s
  else
    let s1 :=
      if s.state = RunState.stopped then
        -- fresh start: allocate id, record startTime, reset paused accumulator, clear route
        { s with currentRunId := some s.nextRunId, nextRunId := s.nextRunId + 1,
                 startTime := some now, pausedTime := 0, route := [] }
      else if s.state = RunState.paused ∧ jsTruthy s.pauseStart then
        -- resume from pause
        { s with pausedTime := s.pausedTime + (now - theTime s.pauseStart),
                 pauseStart := none }
      else s
    let s2 := { s1 with state := RunState.running,
                        stateEvents := s1.stateEvents ++ [RunState.running] }
    { s2 with watchId := some s2.nextWatchId,
              activeWatches := s2.activeWatches ++ [s2.nextWatchId],
              nextWatchId := s2.nextWatchId + 1 }

/-- `pauseTracking` of `run-tracker.ts` / `run-tracker.js` (identical in
both). -/
def pauseTracking (now : Int) (s : TrackerState) : TrackerState :=
  if s.state ≠ RunState.running then s
  else
    let s1 := cancelWatch s
    { s1 with pauseStart := some now, state := RunState.paused,
              stateEvents := s1.stateEvents ++ [RunState.paused] }

/-- `showHistoryRoute` of `map.ts`, restricted to the data it keeps (the
rendering side effects are display-only). -/
def showHistoryRoute (coordinates : List Coordinate) (s : TrackerState) : TrackerState :=
  if coordinates.length = 0 then s else { s with historyRoute := coordinates }

/-- `finishRun` of `run-tracker.ts`.  The save guard is
`coordinates.length > 0 && duration > 0 && currentRunId && startTime`;
truthiness of the generated id string (`run_...`, never empty) is
modelled as non-nullness.  The route is NOT cleared (the source comment:
`clearRoute() is called in startTracking() when beginning a new run`),
and the finished route is handed to `showHistoryRoute`. -/
noncomputable def finishRunTS (now : Int) (s : TrackerState) : TrackerState :=
  if s.state = RunState.stopped then s
  else
    let s1 := cancelWatch s
    let coordinates := s1.route
    let distance := calculateTotalDistance coordinates
    let duration := getElapsedTime now s1
    let s2 :=
      if 0 < coordinates.length ∧ 0 < duration ∧
          s1.currentRunId ≠ none ∧ jsTruthy s1.startTime then
        showHistoryRoute coordinates
          { s1 with savedRuns :=
              { id := theId s1.currentRunId, startTime := theTime s1.startTime,
                endTime := now, duration := duration, distance := distance,
                coordinates := coordinates } :: s1.savedRuns }
      else s1
    { s2 with state := RunState.stopped, startTime := none, pausedTime := 0,
              pauseStart := none, currentRunId := none, lastPosition := none,
              stateEvents := s2.stateEvents ++ [RunState.stopped] }

/-- `finishRun` of `run-tracker.js`.  The save guard is only
`coordinates.length > 0 && duration > 0`, no history route is shown, and
`clearRoute()` IS called during the reset. -/
noncomputable def finishRunJS (now : Int) (s : TrackerState) : TrackerState :=
  if s.state = RunState.stopped then s
  else
    let s1 := cancelWatch s
    let coordinates := s1.route
    let distance := calculateTotalDistance coordinates
    let duration := getElapsedTime now s1
    let s2 :=
      if 0 < coordinates.length ∧ 0 < duration then
        { s1 with savedRuns :=
            { id := theId s1.currentRunId, startTime := theTime s1.startTime,
              endTime := now, duration := duration, distance := distance,
              coordinates := coordinates } :: s1.savedRuns }
      else s1
    { s2 with state := RunState.stopped, startTime := none, pausedTime := 0,
              pauseStart := none, currentRunId := none, lastPosition := none,
              route := [],
              stateEvents := s2.stateEvents ++ [RunState.stopped] }

/-- The accept path of `handlePositionUpdate` (lines after the filters):
record last position, `addCoordinate` (append to the map route), then
recompute the distance over the updated route and notify the distance
observer. -/
noncomputable def acceptSample (lng lat : ℝ) (s : TrackerState) : TrackerState :=
  { s with lastPosition := some (lng, lat),
           route := s.route ++ [(lng, lat)],
           distanceEvents := s.distanceEvents ++
             [calculateTotalDistance (s.route ++ [(lng, lat)])] }

/-- `handlePositionUpdate` of `run-tracker.ts` / `run-tracker.js`
(identical in both): drop the sample if `accuracy > MAX_ACCURACY`; if
the route is non-empty, drop it when the haversine distance from the
route's last coordinate (`coords[coords.length - 1]`, i.e. `getLast?`)
is below `MIN_MOVEMENT`; otherwise accept. -/
noncomputable def handlePositionUpdate (lng lat accuracy : ℝ) (s : TrackerState) :
    TrackerState :=
  if accuracy > MAX_ACCURACY then s
  else
    match s.route.getLast? with
    | some lastCoord =>
      if haversineDistance lastCoord (lng, lat) < MIN_MOVEMENT then s
      else acceptSample lng lat s
    | none => acceptSample lng lat s

/-! ### Event semantics and reachability -/

/-- One externally triggered event: a UI transition request or a
position fix pushed by the sensor. -/
inductive Event : Type
  | start (geoAvail : Bool) (now : Int)
  | pause (now : Int)
  | finish (now : Int)
  | sample (lng lat accuracy : ℝ)

/-- One step of the TypeScript variant. -/
noncomputable def stepTS (s : TrackerState) : Event → TrackerState
  | Event.start g t => startTracking g t s
  | Event.pause t => pauseTracking t s
  | Event.finish t => finishRunTS t s
  | Event.sample lng lat acc => handlePositionUpdate lng lat acc s

/-- One step of the JavaScript variant (differs from `stepTS` only on
`finish`). -/
noncomputable def stepJS (s : TrackerState) : Event → TrackerState
  | Event.start g t => startTracking g t s
  | Event.pause t => pauseTracking t s
  | Event.finish t => finishRunJS t s
  | Event.sample lng lat acc => handlePositionUpdate lng lat acc s

/-- Run the TypeScript variant from the initial module state. -/
noncomputable def execTS (es : List Event) : TrackerState :=
  es.foldl stepTS initialState

/-- Run the JavaScript variant from the initial module state. -/
noncomputable def execJS (es : List Event) : TrackerState :=
  es.foldl stepJS initialState

/-- Sanity condition on a single event: wall-clock readings delivered by
`Date.now()` are positive (the epoch itself is not observable). -/
def EventOK : Event → Prop
  | Event.start _ t => 0 < t
  | Event.pause t => 0 < t
  | Event.finish t => 0 < t
  | Event.sample _ _ _ => True

/-- All events of a trace are sane. -/
def EventsOK (es : List Event) : Prop := ∀ e ∈ es, EventOK e

/-- A module state reachable by some sane trace of the TypeScript
variant. -/
noncomputable def Reachable (s : TrackerState) : Prop :=
  ∃ es, EventsOK es ∧ s = execTS es

/-- The nullability invariant of the session state (§3 of the spec),
strengthened with positivity of the recorded instants (which makes the
JS truthiness guards equivalent to null checks). -/
def Inv (s : TrackerState) : Prop :=
  (s.state = RunState.paused → ∃ p, s.pauseStart = some p ∧ 0 < p) ∧
  (s.state ≠ RunState.paused → s.pauseStart = none) ∧
  (s.state ≠ RunState.stopped → (∃ t, s.startTime = some t ∧ 0 < t) ∧ s.currentRunId ≠ none) ∧
  (s.state = RunState.stopped → s.startTime = none ∧ s.currentRunId = none)

/-- The save guard of `finishRun` in `run-tracker.ts`. -/
def tsSaveGuard (now : Int) (s : TrackerState) : Prop :=
  0 < (cancelWatch s).route.length ∧ 0 < getElapsedTime now (cancelWatch s) ∧
    (cancelWatch s).currentRunId ≠ none ∧ jsTruthy (cancelWatch s).startTime

instance (now : Int) (s : TrackerState) : Decidable (tsSaveGuard now s) := by
  unfold tsSaveGuard; infer_instance

/-- The run record built by `finishRun` at save time. -/
noncomputable def finishRecord (now : Int) (s : TrackerState) : Run :=
  { id := theId (cancelWatch s).currentRunId,
    startTime := theTime (cancelWatch s).startTime,
    endTime := now,
    duration := getElapsedTime now (cancelWatch s),
    distance := calculateTotalDistance (cancelWatch s).route,
    coordinates := (cancelWatch s).route }

/-- The save guard of `finishRun` in `run-tracker.js`. -/
def jsSaveGuard (now : Int) (s : TrackerState) : Prop :=
  0 < (cancelWatch s).route.length ∧ 0 < getElapsedTime now (cancelWatch s)

instance (now : Int) (s : TrackerState) : Decidable (jsSaveGuard now s) := by
  unfold jsSaveGuard; infer_instance

/-- Field-wise agreement between a JS-variant state and a TS-variant
state: everything observable coincides except the active route (and the
display-only history route), and the routes also coincide whenever the
tracker is not stopped. -/
def AgreeExceptStoppedRoute (sj st : TrackerState) : Prop :=
  sj.state = st.state ∧
  sj.watchId = st.watchId ∧
  sj.startTime = st.startTime ∧
  sj.pausedTime = st.pausedTime ∧
  sj.pauseStart = st.pauseStart ∧
  sj.currentRunId = st.currentRunId ∧
  sj.lastPosition = st.lastPosition ∧
  sj.savedRuns = st.savedRuns ∧
  sj.activeWatches = st.activeWatches ∧
  sj.nextWatchId = st.nextWatchId ∧
  sj.nextRunId = st.nextRunId ∧
  sj.stateEvents = st.stateEvents ∧
  sj.distanceEvents = st.distanceEvents ∧
  (st.state ≠ RunState.stopped → sj.route = st.route)

/-- The trace delivers position samples only while the tracker is not
stopped (the regime the spec's concurrency model intends: the sensor
subscription is live only during a run). -/
def SamplesOnlyActive : TrackerState → List Event → Prop
  | _, [] => True
  | s, e :: rest =>
    (match e with
      | Event.sample _ _ _ => s.state ≠ RunState.stopped
      | _ => True) ∧ SamplesOnlyActive (stepTS s e) rest

theorem haversineDistance_eq (coord1 coord2 : Coordinate) :
    haversineDistance coord1 coord2 =
      6371000 * (2 * atan2 (Real.sqrt (havA coord1 coord2))
        (Real.sqrt (1 - havA coord1 coord2))) := rfl

/-! ### Basic geo-math lemmas -/

theorem arctan_nonneg_of_nonneg {x : ℝ} (hx : 0 ≤ x) : 0 ≤ Real.arctan x := by
  have h := Real.arctan_strictMono.monotone hx
  rwa [Real.arctan_zero] at h

theorem atan2_nonneg {y x : ℝ} (hy : 0 ≤ y) (hx : 0 ≤ x) : 0 ≤ atan2 y x := by
  unfold atan2
  rcases lt_or_eq_of_le hx with hx' | hx'
  · rw [if_pos hx']
    exact arctan_nonneg_of_nonneg (div_nonneg hy hx'.le)
  · rw [if_neg (by rw [← hx']; exact lt_irrefl 0),
      if_neg (by rw [← hx']; rintro ⟨h, -⟩; exact absurd h (lt_irrefl 0)),
      if_neg (by rw [← hx']; rintro ⟨h, -⟩; exact absurd h (lt_irrefl 0))]
    by_cases hy' : 0 < y
    · rw [if_pos ⟨hx'.symm, hy'⟩]
      positivity
    · rw [if_neg (by tauto), if_neg (by rintro ⟨-, h⟩; exact absurd h (not_lt.mpr hy))]

theorem haversineDistance_nonneg (a b : Coordinate) : 0 ≤ haversineDistance a b := by
  rw [haversineDistance_eq]
  have h := atan2_nonneg (Real.sqrt_nonneg (havA a b)) (Real.sqrt_nonneg (1 - havA a b))
  have h2 : (0 : ℝ) ≤ 2 * atan2 (Real.sqrt (havA a b)) (Real.sqrt (1 - havA a b)) := by
    linarith
  exact mul_nonneg (by norm_num) h2

theorem havA_self (a : Coordinate) : havA a a = 0 := by
  unfold havA
  simp [toRadians]

theorem haversineDistance_self (a : Coordinate) : haversineDistance a a = 0 := by
  rw [haversineDistance_eq, havA_self]
  norm_num [atan2, Real.arctan_zero]

theorem havA_comm (a b : Coordinate) : havA a b = havA b a := by
  unfold havA
  rw [show toRadians (a.2 - b.2) = -toRadians (b.2 - a.2) by unfold toRadians; ring,
    show toRadians (a.1 - b.1) = -toRadians (b.1 - a.1) by unfold toRadians; ring,
    neg_div, neg_div, Real.sin_neg, Real.sin_neg]
  ring

theorem haversineDistance_comm (a b : Coordinate) :
    haversineDistance a b = haversineDistance b a := by
  rw [haversineDistance_eq, haversineDistance_eq, havA_comm]

theorem sumConsecutive_nonneg (l : List Coordinate) : 0 ≤ sumConsecutive l := by
  induction l with
  | nil => simp [sumConsecutive]
  | cons c1 rest ih =>
    cases rest with
    | nil => simp [sumConsecutive]
    | cons c2 r2 =>
      simp only [sumConsecutive]
      have := haversineDistance_nonneg c1 c2
      linarith

theorem sumConsecutive_le_append (l : List Coordinate) (c : Coordinate) :
    sumConsecutive l ≤ sumConsecutive (l ++ [c]) := by
  induction l with
  | nil => simp [sumConsecutive]
  | cons c1 rest ih =>
    cases rest with
    | nil =>
      simp only [sumConsecutive, List.cons_append, List.nil_append]
      have := haversineDistance_nonneg c1 c
      linarith
    | cons c2 r2 =>
      simp only [sumConsecutive, List.cons_append, List.append_eq] at ih ⊢
      linarith

theorem sumConsecutive_eq_spec (l : List Coordinate) :
    sumConsecutive l = routeDistanceSpec l := by
  induction l with
  | nil => simp [sumConsecutive, routeDistanceSpec]
  | cons c1 rest ih =>
    cases rest with
    | nil => simp [sumConsecutive, routeDistanceSpec]
    | cons c2 r2 =>
      simp only [sumConsecutive, routeDistanceSpec, List.tail_cons, List.zip_cons_cons,
        List.map_cons, List.sum_cons] at ih ⊢
      rw [ih]

theorem calculateTotalDistance_eq_spec (l : List Coordinate) :
    calculateTotalDistance l = routeDistanceSpec l := by
  unfold calculateTotalDistance
  split_ifs with h
  · match l, h with
    | [], _ => simp [routeDistanceSpec]
    | [c], _ => simp [routeDistanceSpec]
  · exact sumConsecutive_eq_spec l

theorem calculateTotalDistance_le_append (r : List Coordinate) (c : Coordinate) :
    calculateTotalDistance r ≤ calculateTotalDistance (r ++ [c]) := by
  unfold calculateTotalDistance
  split_ifs with h1 h2 h3
  · exact le_refl 0
  · exact sumConsecutive_nonneg _
  · exfalso; simp only [List.length_append, List.length_singleton] at h3; omega
  · exact sumConsecutive_le_append r c

theorem cancelWatch_state (s : TrackerState) : (cancelWatch s).state = s.state := by
  unfold cancelWatch; cases s.watchId <;> rfl

theorem cancelWatch_startTime (s : TrackerState) :
    (cancelWatch s).startTime = s.startTime := by
  unfold cancelWatch; cases s.watchId <;> rfl

theorem cancelWatch_pausedTime (s : TrackerState) :
    (cancelWatch s).pausedTime = s.pausedTime := by
  unfold cancelWatch; cases s.watchId <;> rfl

theorem cancelWatch_pauseStart (s : TrackerState) :
    (cancelWatch s).pauseStart = s.pauseStart := by
  unfold cancelWatch; cases s.watchId <;> rfl

theorem cancelWatch_currentRunId (s : TrackerState) :
    (cancelWatch s).currentRunId = s.currentRunId := by
  unfold cancelWatch; cases s.watchId <;> rfl

theorem cancelWatch_lastPosition (s : TrackerState) :
    (cancelWatch s).lastPosition = s.lastPosition := by
  unfold cancelWatch; cases s.watchId <;> rfl

theorem cancelWatch_route (s : TrackerState) : (cancelWatch s).route = s.route := by
  unfold cancelWatch; cases s.watchId <;> rfl

theorem cancelWatch_historyRoute (s : TrackerState) :
    (cancelWatch s).historyRoute = s.historyRoute := by
  unfold cancelWatch; cases s.watchId <;> rfl

theorem cancelWatch_savedRuns (s : TrackerState) :
    (cancelWatch s).savedRuns = s.savedRuns := by
  unfold cancelWatch; cases s.watchId <;> rfl

theorem cancelWatch_stateEvents (s : TrackerState) :
    (cancelWatch s).stateEvents = s.stateEvents := by
  unfold cancelWatch; cases s.watchId <;> rfl

theorem cancelWatch_distanceEvents (s : TrackerState) :
    (cancelWatch s).distanceEvents = s.distanceEvents := by
  unfold cancelWatch; cases s.watchId <;> rfl

theorem cancelWatch_nextWatchId (s : TrackerState) :
    (cancelWatch s).nextWatchId = s.nextWatchId := by
  unfold cancelWatch; cases s.watchId <;> rfl

theorem cancelWatch_nextRunId (s : TrackerState) :
    (cancelWatch s).nextRunId = s.nextRunId := by
  unfold cancelWatch; cases s.watchId <;> rfl

theorem cancelWatch_watchId (s : TrackerState) : (cancelWatch s).watchId = none := by
  unfold cancelWatch; cases h : s.watchId <;> simp [h]

theorem getElapsedTime_cancelWatch (now : Int) (s : TrackerState) :
    getElapsedTime now (cancelWatch s) = getElapsedTime now s := by
  unfold getElapsedTime
  rw [cancelWatch_state, cancelWatch_startTime, cancelWatch_pauseStart, cancelWatch_pausedTime]

/-! ### Branch characterizations of the operations -/

theorem startTracking_false (t : Int) (s : TrackerState) :
    startTracking false t s = s := rfl

theorem startTracking_stopped (t : Int) (s : TrackerState)
    (hs : s.state = RunState.stopped) :
    startTracking true t s =
      { s with currentRunId := some s.nextRunId, nextRunId := s.nextRunId + 1,
               startTime := some t, pausedTime := 0, route := [],
               state := RunState.running,
               stateEvents := s.stateEvents ++ [RunState.running],
               watchId := some s.nextWatchId,
               activeWatches := s.activeWatches ++ [s.nextWatchId],
               nextWatchId := s.nextWatchId + 1 } := by
  unfold startTracking
  rw [if_neg (by simp), if_pos hs]

theorem startTracking_resume (t p : Int) (s : TrackerState)
    (hs : s.state = RunState.paused) (hp : s.pauseStart = some p) (hpz : p ≠ 0) :
    startTracking true t s =
      { s with pausedTime := s.pausedTime + (t - p), pauseStart := none,
               state := RunState.running,
               stateEvents := s.stateEvents ++ [RunState.running],
               watchId := some s.nextWatchId,
               activeWatches := s.activeWatches ++ [s.nextWatchId],
               nextWatchId := s.nextWatchId + 1 } := by
  unfold startTracking
  rw [if_neg (by simp), if_neg (by rw [hs]; intro hc; exact RunState.noConfusion hc),
    if_pos ⟨hs, by rw [hp]; simp [jsTruthy, hpz]⟩, hp]
  rfl

theorem startTracking_running (t : Int) (s : TrackerState)
    (hs : s.state = RunState.running) :
    startTracking true t s =
      { s with state := RunState.running,
               stateEvents := s.stateEvents ++ [RunState.running],
               watchId := some s.nextWatchId,
               activeWatches := s.activeWatches ++ [s.nextWatchId],
               nextWatchId := s.nextWatchId + 1 } := by
  unfold startTracking
  rw [if_neg (by simp), if_neg (by rw [hs]; intro hc; exact RunState.noConfusion hc),
    if_neg (by rw [hs]; rintro ⟨hc, -⟩; exact RunState.noConfusion hc)]

theorem pauseTracking_not_running (t : Int) (s : TrackerState)
    (hs : s.state ≠ RunState.running) : pauseTracking t s = s := by
  unfold pauseTracking
  rw [if_pos hs]

theorem pauseTracking_running (t : Int) (s : TrackerState)
    (hs : s.state = RunState.running) :
    pauseTracking t s =
      { (cancelWatch s) with
        pauseStart := some t, state := RunState.paused,
        stateEvents := (cancelWatch s).stateEvents ++ [RunState.paused] } := by
  unfold pauseTracking
  rw [if_neg (by simp [hs])]

theorem finishRunTS_stopped (t : Int) (s : TrackerState)
    (hs : s.state = RunState.stopped) : finishRunTS t s = s := by
  unfold finishRunTS
  rw [if_pos hs]

theorem finishRunTS_active (t : Int) (s : TrackerState)
    (hs : s.state ≠ RunState.stopped) :
    finishRunTS t s =
      { (if tsSaveGuard t s then
            showHistoryRoute (cancelWatch s).route
              { (cancelWatch s) with
                savedRuns := finishRecord t s :: (cancelWatch s).savedRuns }
          else cancelWatch s) with
        state := RunState.stopped, startTime := none, pausedTime := 0,
        pauseStart := none, currentRunId := none, lastPosition := none,
        stateEvents :=
          (if tsSaveGuard t s then
              showHistoryRoute (cancelWatch s).route
                { (cancelWatch s) with
                  savedRuns := finishRecord t s :: (cancelWatch s).savedRuns }
            else cancelWatch s).stateEvents ++ [RunState.stopped] } := by
  unfold finishRunTS
  rw [if_neg hs]
  rfl

theorem finishRunJS_stopped (t : Int) (s : TrackerState)
    (hs : s.state = RunState.stopped) : finishRunJS t s = s := by
  unfold finishRunJS
  rw [if_pos hs]

theorem finishRunJS_active (t : Int) (s : TrackerState)
    (hs : s.state ≠ RunState.stopped) :
    finishRunJS t s =
      { (if jsSaveGuard t s then
            { (cancelWatch s) with
              savedRuns := finishRecord t s :: (cancelWatch s).savedRuns }
          else cancelWatch s) with
        state := RunState.stopped, startTime := none, pausedTime := 0,
        pauseStart := none, currentRunId := none, lastPosition := none,
        route := [],
        stateEvents :=
          (if jsSaveGuard t s then
              { (cancelWatch s) with
                savedRuns := finishRecord t s :: (cancelWatch s).savedRuns }
            else cancelWatch s).stateEvents ++ [RunState.stopped] } := by
  unfold finishRunJS
  rw [if_neg hs]
  rfl

theorem showHistoryRoute_route (coords : List Coordinate) (s : TrackerState) :
    (showHistoryRoute coords s).route = s.route := by
  unfold showHistoryRoute; split_ifs <;> rfl

theorem showHistoryRoute_savedRuns (coords : List Coordinate) (s : TrackerState) :
    (showHistoryRoute coords s).savedRuns = s.savedRuns := by
  unfold showHistoryRoute; split_ifs <;> rfl

theorem showHistoryRoute_watchId (coords : List Coordinate) (s : TrackerState) :
    (showHistoryRoute coords s).watchId = s.watchId := by
  unfold showHistoryRoute; split_ifs <;> rfl

theorem showHistoryRoute_stateEvents (coords : List Coordinate) (s : TrackerState) :
    (showHistoryRoute coords s).stateEvents = s.stateEvents := by
  unfold showHistoryRoute; split_ifs <;> rfl

theorem showHistoryRoute_distanceEvents (coords : List Coordinate) (s : TrackerState) :
    (showHistoryRoute coords s).distanceEvents = s.distanceEvents := by
  unfold showHistoryRoute; split_ifs <;> rfl

theorem showHistoryRoute_activeWatches (coords : List Coordinate) (s : TrackerState) :
    (showHistoryRoute coords s).activeWatches = s.activeWatches := by
  unfold showHistoryRoute; split_ifs <;> rfl

theorem showHistoryRoute_nextWatchId (coords : List Coordinate) (s : TrackerState) :
    (showHistoryRoute coords s).nextWatchId = s.nextWatchId := by
  unfold showHistoryRoute; split_ifs <;> rfl

theorem showHistoryRoute_nextRunId (coords : List Coordinate) (s : TrackerState) :
    (showHistoryRoute coords s).nextRunId = s.nextRunId := by
  unfold showHistoryRoute; split_ifs <;> rfl

/-- `finishRun` (TS) always leaves the state machine `stopped`
(either it was already, or it is set). -/
theorem finishRunTS_state (t : Int) (s : TrackerState) :
    (finishRunTS t s).state = RunState.stopped := by
  by_cases hs : s.state = RunState.stopped
  · rw [finishRunTS_stopped t s hs]; exact hs
  · rw [finishRunTS_active t s hs]

/-- `finishRun` (TS) never touches the active route. -/
theorem finishRunTS_route (t : Int) (s : TrackerState) :
    (finishRunTS t s).route = s.route := by
  by_cases hs : s.state = RunState.stopped
  · rw [finishRunTS_stopped t s hs]
  · rw [finishRunTS_active t s hs]
    show (if tsSaveGuard t s then _ else cancelWatch s).route = s.route
    split_ifs
    · rw [showHistoryRoute_route]
      exact cancelWatch_route s
    · exact cancelWatch_route s

theorem finishRunTS_savedRuns (t : Int) (s : TrackerState) (hs : s.state ≠ RunState.stopped) :
    (finishRunTS t s).savedRuns =
      if tsSaveGuard t s then finishRecord t s :: s.savedRuns else s.savedRuns := by
  rw [finishRunTS_active t s hs]
  show (if tsSaveGuard t s then _ else cancelWatch s).savedRuns = _
  split_ifs
  · rw [showHistoryRoute_savedRuns]
    show finishRecord t s :: (cancelWatch s).savedRuns = _
    rw [cancelWatch_savedRuns]
  · exact cancelWatch_savedRuns s

theorem finishRunTS_watchId (t : Int) (s : TrackerState) (hs : s.state ≠ RunState.stopped) :
    (finishRunTS t s).watchId = none := by
  rw [finishRunTS_active t s hs]
  show (if tsSaveGuard t s then _ else cancelWatch s).watchId = none
  split_ifs
  · rw [showHistoryRoute_watchId]
    exact cancelWatch_watchId s
  · exact cancelWatch_watchId s

/-! ### Invariant preservation -/

theorem inv_initial : Inv initialState := by
  refine ⟨?_, ?_, ?_, ?_⟩ <;> simp [initialState]

theorem inv_startTracking (g : Bool) (t : Int) (s : TrackerState)
    (h : Inv s) (ht : 0 < t) : Inv (startTracking g t s) := by
  obtain ⟨h1, h2, h3, h4⟩ := h
  cases g with
  | false => exact ⟨h1, h2, h3, h4⟩
  | true =>
    cases hs : s.state with
    | stopped =>
      rw [startTracking_stopped t s hs]
      refine ⟨?_, ?_, ?_, ?_⟩
      · intro hc; exact absurd hc (by simp)
      · intro _; exact h2 (by rw [hs]; intro hc; exact RunState.noConfusion hc)
      · intro _; exact ⟨⟨t, rfl, ht⟩, by simp⟩
      · intro hc; exact absurd hc (by simp)
    | paused =>
      obtain ⟨p, hp, hppos⟩ := h1 hs
      rw [startTracking_resume t p s hs hp (by omega)]
      refine ⟨?_, ?_, ?_, ?_⟩
      · intro hc; exact absurd hc (by simp)
      · intro _; rfl
      · intro _
        exact h3 (by rw [hs]; intro hc; exact RunState.noConfusion hc)
      · intro hc; exact absurd hc (by simp)
    | running =>
      rw [startTracking_running t s hs]
      refine ⟨?_, ?_, ?_, ?_⟩
      · intro hc; exact absurd hc (by simp)
      · intro _; exact h2 (by rw [hs]; intro hc; exact RunState.noConfusion hc)
      · intro _
        exact h3 (by rw [hs]; intro hc; exact RunState.noConfusion hc)
      · intro hc; exact absurd hc (by simp)

theorem inv_pauseTracking (t : Int) (s : TrackerState)
    (h : Inv s) (ht : 0 < t) : Inv (pauseTracking t s) := by
  obtain ⟨h1, h2, h3, h4⟩ := h
  by_cases hrun : s.state = RunState.running
  · rw [pauseTracking_running t s hrun]
    refine ⟨?_, ?_, ?_, ?_⟩
    · intro _; exact ⟨t, rfl, ht⟩
    · intro hc; exact absurd rfl hc
    · intro _
      have h3' := h3 (by rw [hrun]; intro hc; exact RunState.noConfusion hc)
      rw [cancelWatch_startTime, cancelWatch_currentRunId]
      exact h3'
    · intro hc; exact absurd hc (by simp)
  · rw [pauseTracking_not_running t s hrun]
    exact ⟨h1, h2, h3, h4⟩

theorem inv_finishRunTS (t : Int) (s : TrackerState) (h : Inv s) :
    Inv (finishRunTS t s) := by
  by_cases hstop : s.state = RunState.stopped
  · rw [finishRunTS_stopped t s hstop]
    exact h
  · rw [finishRunTS_active t s hstop]
    refine ⟨?_, ?_, ?_, ?_⟩
    · intro hc; exact absurd hc (by simp)
    · intro _; rfl
    · intro hc; exact absurd rfl hc
    · intro _; exact ⟨rfl, rfl⟩

theorem inv_acceptSample (lng lat : ℝ) (s : TrackerState) (h : Inv s) :
    Inv (acceptSample lng lat s) := h

theorem inv_handlePositionUpdate (lng lat acc : ℝ) (s : TrackerState) (h : Inv s) :
    Inv (handlePositionUpdate lng lat acc s) := by
  by_cases h1 : acc > MAX_ACCURACY
  · simp only [handlePositionUpdate, if_pos h1]; exact h
  · cases hl : s.route.getLast? with
    | none =>
      simp only [handlePositionUpdate, if_neg h1, hl]
      exact inv_acceptSample lng lat s h
    | some c =>
      by_cases h2 : haversineDistance c (lng, lat) < MIN_MOVEMENT
      · simp only [handlePositionUpdate, if_neg h1, hl, if_pos h2]; exact h
      · simp only [handlePositionUpdate, if_neg h1, hl, if_neg h2]
        exact inv_acceptSample lng lat s h

theorem inv_stepTS (s : TrackerState) (e : Event) (h : Inv s) (he : EventOK e) :
    Inv (stepTS s e) := by
  cases e with
  | start g t => exact inv_startTracking g t s h he
  | pause t => exact inv_pauseTracking t s h he
  | finish t => exact inv_finishRunTS t s h
  | sample lng lat acc => exact inv_handlePositionUpdate lng lat acc s h

theorem inv_foldl (es : List Event) :
    ∀ s : TrackerState, Inv s → EventsOK es → Inv (es.foldl stepTS s) := by
  induction es with
  | nil => intro s h _; exact h
  | cons e rest ih =>
    intro s h hok
    exact ih (stepTS s e) (inv_stepTS s e h (hok e (List.mem_cons_self e rest)))
      (fun x hx => hok x (List.mem_cons_of_mem e hx))

theorem reachable_inv {s : TrackerState} (h : Reachable s) : Inv s := by
  obtain ⟨es, hok, rfl⟩ := h
  exact inv_foldl es initialState inv_initial hok

theorem jsTruthy_some_pos {t : Int} (h : 0 < t) : jsTruthy (some t) = true := by
  simp only [jsTruthy, decide_eq_true_eq]
  omega

theorem state_ne_stopped_of_eq {s : TrackerState} {v : RunState}
    (h : s.state = v) (hv : v ≠ RunState.stopped) : s.state ≠ RunState.stopped := by
  rw [h]; exact hv

/-- Under the reachability invariant, the TS save guard (which also
checks `currentRunId` and `startTime` for truthiness) collapses to the
two observable conditions: non-empty route and positive duration. -/
theorem tsSaveGuard_iff (now : Int) (s : TrackerState) (hInv : Inv s)
    (hs : s.state ≠ RunState.stopped) :
    tsSaveGuard now s ↔ (0 < s.route.length ∧ 0 < getElapsedTime now s) := by
  obtain ⟨h1, h2, h3, h4⟩ := hInv
  obtain ⟨⟨st, hst, hstpos⟩, hid⟩ := h3 hs
  unfold tsSaveGuard
  rw [cancelWatch_route, cancelWatch_currentRunId, cancelWatch_startTime,
    getElapsedTime_cancelWatch]
  constructor
  · rintro ⟨a, b, -, -⟩; exact ⟨a, b⟩
  · rintro ⟨a, b⟩
    exact ⟨a, b, hid, by rw [hst]; exact jsTruthy_some_pos hstpos⟩

theorem jsSaveGuard_iff (now : Int) (s : TrackerState) :
    jsSaveGuard now s ↔ (0 < s.route.length ∧ 0 < getElapsedTime now s) := by
  unfold jsSaveGuard
  rw [cancelWatch_route, getElapsedTime_cancelWatch]

theorem finishRunJS_state (t : Int) (s : TrackerState) :
    (finishRunJS t s).state = RunState.stopped := by
  by_cases hs : s.state = RunState.stopped
  · rw [finishRunJS_stopped t s hs]; exact hs
  · rw [finishRunJS_active t s hs]

theorem finishRunJS_watchId (t : Int) (s : TrackerState) (hs : s.state ≠ RunState.stopped) :
    (finishRunJS t s).watchId = none := by
  rw [finishRunJS_active t s hs]
  show (if jsSaveGuard t s then _ else cancelWatch s).watchId = none
  split_ifs
  · exact cancelWatch_watchId s
  · exact cancelWatch_watchId s

theorem finishRunJS_savedRuns (t : Int) (s : TrackerState) (hs : s.state ≠ RunState.stopped) :
    (finishRunJS t s).savedRuns =
      if jsSaveGuard t s then finishRecord t s :: s.savedRuns else s.savedRuns := by
  rw [finishRunJS_active t s hs]
  show (if jsSaveGuard t s then _ else cancelWatch s).savedRuns = _
  split_ifs
  · show finishRecord t s :: (cancelWatch s).savedRuns = _
    rw [cancelWatch_savedRuns]
  · exact cancelWatch_savedRuns s

theorem finishRunTS_activeWatches (t : Int) (s : TrackerState)
    (hs : s.state ≠ RunState.stopped) :
    (finishRunTS t s).activeWatches = (cancelWatch s).activeWatches := by
  rw [finishRunTS_active t s hs]
  show (if tsSaveGuard t s then _ else cancelWatch s).activeWatches = _
  split_ifs
  · rw [showHistoryRoute_activeWatches]
  · rfl

theorem finishRunJS_activeWatches (t : Int) (s : TrackerState)
    (hs : s.state ≠ RunState.stopped) :
    (finishRunJS t s).activeWatches = (cancelWatch s).activeWatches := by
  rw [finishRunJS_active t s hs]
  show (if jsSaveGuard t s then _ else cancelWatch s).activeWatches = _
  split_ifs
  · rfl
  · rfl

theorem finishRunTS_nextWatchId (t : Int) (s : TrackerState)
    (hs : s.state ≠ RunState.stopped) :
    (finishRunTS t s).nextWatchId = s.nextWatchId := by
  rw [finishRunTS_active t s hs]
  show (if tsSaveGuard t s then _ else cancelWatch s).nextWatchId = _
  split_ifs
  · rw [showHistoryRoute_nextWatchId]
    exact cancelWatch_nextWatchId s
  · exact cancelWatch_nextWatchId s

theorem finishRunJS_nextWatchId (t : Int) (s : TrackerState)
    (hs : s.state ≠ RunState.stopped) :
    (finishRunJS t s).nextWatchId = s.nextWatchId := by
  rw [finishRunJS_active t s hs]
  show (if jsSaveGuard t s then _ else cancelWatch s).nextWatchId = _
  split_ifs
  · exact cancelWatch_nextWatchId s
  · exact cancelWatch_nextWatchId s

theorem finishRunTS_nextRunId (t : Int) (s : TrackerState)
    (hs : s.state ≠ RunState.stopped) :
    (finishRunTS t s).nextRunId = s.nextRunId := by
  rw [finishRunTS_active t s hs]
  show (if tsSaveGuard t s then _ else cancelWatch s).nextRunId = _
  split_ifs
  · rw [showHistoryRoute_nextRunId]
    exact cancelWatch_nextRunId s
  · exact cancelWatch_nextRunId s

theorem finishRunJS_nextRunId (t : Int) (s : TrackerState)
    (hs : s.state ≠ RunState.stopped) :
    (finishRunJS t s).nextRunId = s.nextRunId := by
  rw [finishRunJS_active t s hs]
  show (if jsSaveGuard t s then _ else cancelWatch s).nextRunId = _
  split_ifs
  · exact cancelWatch_nextRunId s
  · exact cancelWatch_nextRunId s

theorem finishRunTS_stateEvents (t : Int) (s : TrackerState)
    (hs : s.state ≠ RunState.stopped) :
    (finishRunTS t s).stateEvents = s.stateEvents ++ [RunState.stopped] := by
  rw [finishRunTS_active t s hs]
  show (if tsSaveGuard t s then _ else cancelWatch s).stateEvents ++ [RunState.stopped] = _
  split_ifs
  · rw [showHistoryRoute_stateEvents]
    show (cancelWatch s).stateEvents ++ _ = _
    rw [cancelWatch_stateEvents]
  · rw [cancelWatch_stateEvents]

theorem finishRunJS_stateEvents (t : Int) (s : TrackerState)
    (hs : s.state ≠ RunState.stopped) :
    (finishRunJS t s).stateEvents = s.stateEvents ++ [RunState.stopped] := by
  rw [finishRunJS_active t s hs]
  show (if jsSaveGuard t s then _ else cancelWatch s).stateEvents ++ [RunState.stopped] = _
  split_ifs
  · show (cancelWatch s).stateEvents ++ _ = _
    rw [cancelWatch_stateEvents]
  · rw [cancelWatch_stateEvents]

theorem finishRunTS_distanceEvents (t : Int) (s : TrackerState)
    (hs : s.state ≠ RunState.stopped) :
    (finishRunTS t s).distanceEvents = s.distanceEvents := by
  rw [finishRunTS_active t s hs]
  show (if tsSaveGuard t s then _ else cancelWatch s).distanceEvents = _
  split_ifs
  · rw [showHistoryRoute_distanceEvents]
    exact cancelWatch_distanceEvents s
  · exact cancelWatch_distanceEvents s

theorem finishRunJS_distanceEvents (t : Int) (s : TrackerState)
    (hs : s.state ≠ RunState.stopped) :
    (finishRunJS t s).distanceEvents = s.distanceEvents := by
  rw [finishRunJS_active t s hs]
  show (if jsSaveGuard t s then _ else cancelWatch s).distanceEvents = _
  split_ifs
  · exact cancelWatch_distanceEvents s
  · exact cancelWatch_distanceEvents s

theorem finishRunTS_resets (t : Int) (s : TrackerState) (hs : s.state ≠ RunState.stopped) :
    (finishRunTS t s).startTime = none ∧ (finishRunTS t s).pausedTime = 0 ∧
    (finishRunTS t s).pauseStart = none ∧ (finishRunTS t s).currentRunId = none ∧
    (finishRunTS t s).lastPosition = none := by
  rw [finishRunTS_active t s hs]
  exact ⟨rfl, rfl, rfl, rfl, rfl⟩

theorem finishRunJS_resets (t : Int) (s : TrackerState) (hs : s.state ≠ RunState.stopped) :
    (finishRunJS t s).startTime = none ∧ (finishRunJS t s).pausedTime = 0 ∧
    (finishRunJS t s).pauseStart = none ∧ (finishRunJS t s).currentRunId = none ∧
    (finishRunJS t s).lastPosition = none := by
  rw [finishRunJS_active t s hs]
  exact ⟨rfl, rfl, rfl, rfl, rfl⟩

/-- The two `finishRun` variants stay in lock-step (up to the retained
route) when run from field-wise agreeing states with equal routes. -/
theorem finish_agree (t : Int) (sj st : TrackerState)
    (hA : AgreeExceptStoppedRoute sj st) (hroute : sj.route = st.route)
    (hInv : Inv st) (hne : st.state ≠ RunState.stopped) :
    AgreeExceptStoppedRoute (finishRunJS t sj) (finishRunTS t st) := by
  obtain ⟨h1, h2, h3, h4, h5, h6, h7, h8, h9, h10, h11, h12, h13, -⟩ := hA
  have hnej : sj.state ≠ RunState.stopped := by rw [h1]; exact hne
  have hET : getElapsedTime t sj = getElapsedTime t st := by
    unfold getElapsedTime
    rw [h1, h3, h4, h5]
  have hrec : finishRecord t sj = finishRecord t st := by
    unfold finishRecord
    rw [cancelWatch_currentRunId, cancelWatch_currentRunId, cancelWatch_startTime,
      cancelWatch_startTime, cancelWatch_route, cancelWatch_route,
      getElapsedTime_cancelWatch, getElapsedTime_cancelWatch, h6, h3, hroute, hET]
  have hguard : jsSaveGuard t sj ↔ tsSaveGuard t st := by
    rw [jsSaveGuard_iff, tsSaveGuard_iff t st hInv hne, hroute, hET]
  obtain ⟨hj1, hj2, hj3, hj4, hj5⟩ := finishRunJS_resets t sj hnej
  obtain ⟨ht1, ht2, ht3, ht4, ht5⟩ := finishRunTS_resets t st hne
  refine ⟨?_, ?_, ?_, ?_, ?_, ?_, ?_, ?_, ?_, ?_, ?_, ?_, ?_, ?_⟩
  · rw [finishRunJS_state, finishRunTS_state]
  · rw [finishRunJS_watchId t sj hnej, finishRunTS_watchId t st hne]
  · rw [hj1, ht1]
  · rw [hj2, ht2]
  · rw [hj3, ht3]
  · rw [hj4, ht4]
  · rw [hj5, ht5]
  · rw [finishRunJS_savedRuns t sj hnej, finishRunTS_savedRuns t st hne, h8, hrec]
    by_cases hg : tsSaveGuard t st
    · rw [if_pos hg, if_pos (hguard.mpr hg)]
    · rw [if_neg hg, if_neg (fun hc => hg (hguard.mp hc))]
  · rw [finishRunJS_activeWatches t sj hnej, finishRunTS_activeWatches t st hne]
    unfold cancelWatch
    rw [h2]
    cases hw : st.watchId <;> simp [h9]
  · rw [finishRunJS_nextWatchId t sj hnej, finishRunTS_nextWatchId t st hne, h10]
  · rw [finishRunJS_nextRunId t sj hnej, finishRunTS_nextRunId t st hne, h11]
  · rw [finishRunJS_stateEvents t sj hnej, finishRunTS_stateEvents t st hne, h12]
  · rw [finishRunJS_distanceEvents t sj hnej, finishRunTS_distanceEvents t st hne, h13]
  · intro hc
    exact absurd (finishRunTS_state t st) hc


/-! ### The claims -/

/-- C2: For every call to `finishRun` from a reachable state that is
`running` or `paused`, the state transitions to `stopped` unconditionally;
a run record is pushed onto the persistence sink if and only if the route
is non-empty and the computed duration is positive; otherwise the run is
silently discarded; and in either case all session fields are reset and
the sensor watch is cancelled.  The emitted record carries the route
snapshot and the computed duration.  This holds for the TS variant and
(emission and stop) equally for the JS variant. -/
theorem finishRun_emit_iff_and_reset (now : Int) (s : TrackerState)
    (hreach : Reachable s) (hs : s.state ≠ RunState.stopped) :
    (finishRunTS now s).state = RunState.stopped ∧
    ((0 < s.route.length ∧ 0 < getElapsedTime now s) →
      (finishRunTS now s).savedRuns = finishRecord now s :: s.savedRuns) ∧
    (¬(0 < s.route.length ∧ 0 < getElapsedTime now s) →
      (finishRunTS now s).savedRuns = s.savedRuns) ∧
    (finishRunTS now s).startTime = none ∧
    (finishRunTS now s).pausedTime = 0 ∧
    (finishRunTS now s).pauseStart = none ∧
    (finishRunTS now s).currentRunId = none ∧
    (finishRunTS now s).lastPosition = none ∧
    (finishRunTS now s).watchId = none ∧
    (finishRecord now s).coordinates = s.route ∧
    (finishRecord now s).duration = getElapsedTime now s ∧
    (finishRunJS now s).state = RunState.stopped ∧
    ((0 < s.route.length ∧ 0 < getElapsedTime now s) →
      (finishRunJS now s).savedRuns = finishRecord now s :: s.savedRuns) ∧
    (¬(0 < s.route.length ∧ 0 < getElapsedTime now s) →
      (finishRunJS now s).savedRuns = s.savedRuns) := by
  have hguard := tsSaveGuard_iff now s (reachable_inv hreach) hs
  have hguardJS := jsSaveGuard_iff now s
  refine ⟨finishRunTS_state now s, ?_, ?_, ?_, ?_, ?_, ?_, ?_,
    finishRunTS_watchId now s hs, ?_, ?_, finishRunJS_state now s, ?_, ?_⟩
  · intro h
    rw [finishRunTS_savedRuns now s hs, if_pos (hguard.mpr h)]
  · intro h
    rw [finishRunTS_savedRuns now s hs, if_neg (fun hc => h (hguard.mp hc))]
  · rw [finishRunTS_active now s hs]
  · rw [finishRunTS_active now s hs]
  · rw [finishRunTS_active now s hs]
  · rw [finishRunTS_active now s hs]
  · rw [finishRunTS_active now s hs]
  · unfold finishRecord
    exact cancelWatch_route s
  · unfold finishRecord
    exact getElapsedTime_cancelWatch now s
  · intro h
    rw [finishRunJS_savedRuns now s hs, if_pos (hguardJS.mpr h)]
  · intro h
    rw [finishRunJS_savedRuns now s hs, if_neg (fun hc => h (hguardJS.mp hc))]

/-- Witness for C2: finishing right after a fresh start (empty route)
discards the run but still stops the tracker. -/
theorem finishRun_emit_iff_and_reset_witness :
    (finishRunTS 3 (execTS [Event.start true 1])).state = RunState.stopped ∧
    (finishRunTS 3 (execTS [Event.start true 1])).savedRuns =
      (execTS [Event.start true 1]).savedRuns := by
  have hexec : execTS [Event.start true 1] = startTracking true 1 initialState := rfl
  have hstate : (execTS [Event.start true 1]).state = RunState.running := by
    rw [hexec, startTracking_stopped 1 initialState rfl]
  have hroute : (execTS [Event.start true 1]).route = [] := by
    rw [hexec, startTracking_stopped 1 initialState rfl]
  have hok : EventsOK [Event.start true 1] := by
    intro e he
    simp only [List.mem_singleton] at he
    subst he
    exact zero_lt_one
  have h := finishRun_emit_iff_and_reset 3 (execTS [Event.start true 1])
    ⟨[Event.start true 1], hok, rfl⟩ (state_ne_stopped_of_eq hstate (by simp))
  refine ⟨h.1, h.2.2.1 ?_⟩
  rintro ⟨hlen, -⟩
  rw [hroute] at hlen
  simp at hlen

/-- C3: `getElapsedTime` returns 0 when stopped, freezes at
`pauseStart - startTime - pausedTime` when paused, and reads
`now - startTime - pausedTime` when running, for every reachable state. -/
theorem getElapsedTime_by_state (now : Int) (s : TrackerState)
    (hreach : Reachable s) :
    (s.state = RunState.stopped → getElapsedTime now s = 0) ∧
    (s.state = RunState.paused →
      getElapsedTime now s = theTime s.pauseStart - theTime s.startTime - s.pausedTime) ∧
    (s.state = RunState.running →
      getElapsedTime now s = now - theTime s.startTime - s.pausedTime) := by
  obtain ⟨h1, h2, h3, h4⟩ := reachable_inv hreach
  refine ⟨?_, ?_, ?_⟩
  · intro hs
    obtain ⟨hst, -⟩ := h4 hs
    unfold getElapsedTime
    rw [hst]
    simp [jsTruthy]
  · intro hs
    obtain ⟨p, hp, hppos⟩ := h1 hs
    obtain ⟨⟨st, hst, hstpos⟩, -⟩ := h3 (state_ne_stopped_of_eq hs (by simp))
    unfold getElapsedTime
    rw [hst, hp]
    simp [hs, jsTruthy_some_pos hppos, jsTruthy_some_pos hstpos]
  · intro hs
    obtain ⟨⟨st, hst, hstpos⟩, -⟩ := h3 (state_ne_stopped_of_eq hs (by simp))
    unfold getElapsedTime
    rw [hst]
    simp [hs, jsTruthy_some_pos hstpos]

/-- Witness for C3: five ticks after a fresh start at tick 1 the elapsed
time is 4. -/
theorem getElapsedTime_by_state_witness :
    getElapsedTime 5 (execTS [Event.start true 1]) = 4 := by
  have hexec : execTS [Event.start true 1] = startTracking true 1 initialState := rfl
  have hstate : (execTS [Event.start true 1]).state = RunState.running := by
    rw [hexec, startTracking_stopped 1 initialState rfl]
  have hok : EventsOK [Event.start true 1] := by
    intro e he
    simp only [List.mem_singleton] at he
    subst he
    exact zero_lt_one
  have h := (getElapsedTime_by_state 5 (execTS [Event.start true 1])
    ⟨[Event.start true 1], hok, rfl⟩).2.2 hstate
  rw [h, hexec, startTracking_stopped 1 initialState rfl]
  norm_num [theTime, initialState]

/-- C5: in every reachable state, `pauseStart` is non-null iff the state
is `paused`, and `startTime` / `currentRunId` are non-null iff the state
is `running` or `paused`. -/
theorem session_nullability_inv (s : TrackerState) (hreach : Reachable s) :
    (s.pauseStart ≠ none ↔ s.state = RunState.paused) ∧
    ((s.startTime ≠ none ∧ s.currentRunId ≠ none) ↔
      (s.state = RunState.running ∨ s.state = RunState.paused)) := by
  obtain ⟨h1, h2, h3, h4⟩ := reachable_inv hreach
  constructor
  · constructor
    · intro hne
      by_contra hstate
      exact hne (h2 hstate)
    · intro hs
      obtain ⟨p, hp, -⟩ := h1 hs
      rw [hp]
      simp
  · constructor
    · rintro ⟨hst, -⟩
      cases hstate : s.state with
      | stopped =>
        obtain ⟨h4a, -⟩ := h4 hstate
        exact absurd h4a hst
      | running => exact Or.inl rfl
      | paused => exact Or.inr rfl
    · intro hor
      have hne : s.state ≠ RunState.stopped := by
        rcases hor with h | h <;> rw [h] <;> simp
      obtain ⟨⟨st, hst, -⟩, hid⟩ := h3 hne
      exact ⟨by rw [hst]; simp, hid⟩

/-- Witness for C5: the invariant instantiated at the initial state. -/
theorem session_nullability_inv_witness :
    ((initialState.pauseStart ≠ none ↔ initialState.state = RunState.paused) ∧
      ((initialState.startTime ≠ none ∧ initialState.currentRunId ≠ none) ↔
        (initialState.state = RunState.running ∨ initialState.state = RunState.paused))) :=
  session_nullability_inv initialState
    ⟨[], fun e he => absurd he (List.not_mem_nil e), rfl⟩

theorem handlePositionUpdate_inaccurate (lng lat acc : ℝ) (s : TrackerState)
    (h : MAX_ACCURACY < acc) : handlePositionUpdate lng lat acc s = s := by
  unfold handlePositionUpdate
  rw [if_pos h]

theorem handlePositionUpdate_first (lng lat acc : ℝ) (s : TrackerState)
    (h : acc ≤ MAX_ACCURACY) (hr : s.route = []) :
    handlePositionUpdate lng lat acc s = acceptSample lng lat s := by
  unfold handlePositionUpdate
  rw [if_neg (not_lt.mpr h)]
  have hnone : s.route.getLast? = none := by rw [hr]; rfl
  simp only [hnone]

theorem handlePositionUpdate_jitter (lng lat acc : ℝ) (c : Coordinate) (s : TrackerState)
    (h : acc ≤ MAX_ACCURACY) (hl : s.route.getLast? = some c)
    (hm : haversineDistance c (lng, lat) < MIN_MOVEMENT) :
    handlePositionUpdate lng lat acc s = s := by
  unfold handlePositionUpdate
  rw [if_neg (not_lt.mpr h)]
  simp only [hl]
  rw [if_pos hm]

theorem handlePositionUpdate_accept (lng lat acc : ℝ) (c : Coordinate) (s : TrackerState)
    (h : acc ≤ MAX_ACCURACY) (hl : s.route.getLast? = some c)
    (hm : MIN_MOVEMENT ≤ haversineDistance c (lng, lat)) :
    handlePositionUpdate lng lat acc s = acceptSample lng lat s := by
  unfold handlePositionUpdate
  rw [if_neg (not_lt.mpr h)]
  simp only [hl]
  rw [if_neg (not_lt.mpr hm)]

/-- C4: the position filter drops a sample (with NO state change at all:
route, last position and observer logs untouched) when its accuracy
exceeds 30 m, or when a previously accepted coordinate exists and the
incoming point is within 3 m of it; otherwise it accepts the sample —
in particular the first sample of a run (empty route) is accepted
exactly when its accuracy is at most 30 m. -/
theorem positionFilter_accept_reject (lng lat acc : ℝ) (s : TrackerState) :
    (MAX_ACCURACY < acc → handlePositionUpdate lng lat acc s = s) ∧
    (∀ c, acc ≤ MAX_ACCURACY → s.route.getLast? = some c →
      haversineDistance c (lng, lat) < MIN_MOVEMENT →
      handlePositionUpdate lng lat acc s = s) ∧
    (∀ c, acc ≤ MAX_ACCURACY → s.route.getLast? = some c →
      MIN_MOVEMENT ≤ haversineDistance c (lng, lat) →
      handlePositionUpdate lng lat acc s = acceptSample lng lat s) ∧
    (acc ≤ MAX_ACCURACY → s.route = [] →
      handlePositionUpdate lng lat acc s = acceptSample lng lat s) :=
  ⟨handlePositionUpdate_inaccurate lng lat acc s,
    fun c ha hl hm => handlePositionUpdate_jitter lng lat acc c s ha hl hm,
    fun c ha hl hm => handlePositionUpdate_accept lng lat acc c s ha hl hm,
    fun ha hr => handlePositionUpdate_first lng lat acc s ha hr⟩

/-- Witness for C4: a 31 m-accuracy sample is dropped in the initial
state; a 10 m-accuracy first sample is appended to the empty route. -/
theorem positionFilter_accept_reject_witness :
    handlePositionUpdate 0 0 31 initialState = initialState ∧
    (handlePositionUpdate 0 0 10 initialState).route = [((0 : ℝ), (0 : ℝ))] := by
  constructor
  · exact (positionFilter_accept_reject 0 0 31 initialState).1
      (by norm_num [MAX_ACCURACY])
  · rw [(positionFilter_accept_reject 0 0 10 initialState).2.2.2
      (by norm_num [MAX_ACCURACY]) rfl]
    rfl

/-- C6: route distance never regresses — appending a coordinate never
decreases `calculateTotalDistance`, and hence processing any incoming
sample never decreases `getCurrentDistance`. -/
theorem distance_never_regresses (r : List Coordinate) (c : Coordinate)
    (lng lat acc : ℝ) (s : TrackerState) :
    calculateTotalDistance r ≤ calculateTotalDistance (r ++ [c]) ∧
    getCurrentDistance s ≤ getCurrentDistance (handlePositionUpdate lng lat acc s) := by
  refine ⟨calculateTotalDistance_le_append r c, ?_⟩
  by_cases h1 : MAX_ACCURACY < acc
  · rw [handlePositionUpdate_inaccurate lng lat acc s h1]
  · have h1' : acc ≤ MAX_ACCURACY := not_lt.mp h1
    cases hl : s.route.getLast? with
    | none =>
      have hr : s.route = [] := List.getLast?_eq_none_iff.mp hl
      rw [handlePositionUpdate_first lng lat acc s h1' hr]
      exact calculateTotalDistance_le_append s.route (lng, lat)
    | some c0 =>
      by_cases h2 : haversineDistance c0 (lng, lat) < MIN_MOVEMENT
      · rw [handlePositionUpdate_jitter lng lat acc c0 s h1' hl h2]
      · rw [handlePositionUpdate_accept lng lat acc c0 s h1' hl (not_lt.mp h2)]
        exact calculateTotalDistance_le_append s.route (lng, lat)

/-- C7: `calculateTotalDistance` equals the specification's pairwise sum
`Σ distance(p_(i-1), p_i)` and returns 0 for sequences shorter than 2. -/
theorem calculateTotalDistance_spec (l : List Coordinate) :
    calculateTotalDistance l = routeDistanceSpec l ∧
    (l.length < 2 → calculateTotalDistance l = 0) := by
  refine ⟨calculateTotalDistance_eq_spec l, ?_⟩
  intro h
  unfold calculateTotalDistance
  rw [if_pos h]

/-- Witness for C7: a one-point route has distance 0. -/
theorem calculateTotalDistance_spec_witness :
    calculateTotalDistance [((0 : ℝ), (0 : ℝ))] = 0 :=
  (calculateTotalDistance_spec [((0 : ℝ), (0 : ℝ))]).2 (by simp)

/-- C9: the haversine distance is symmetric and zero on the diagonal. -/
theorem haversine_symm_and_self (a b : Coordinate) :
    haversineDistance a b = haversineDistance b a ∧ haversineDistance a a = 0 :=
  ⟨haversineDistance_comm a b, haversineDistance_self a⟩

/-- C1 (evaluation of the failing input): the claim "start never
subscribes when already running" FAILS on the code: `startTracking`
subscribes on every call, so a second `start` while already `running`
leaves TWO live position-source subscriptions (the first handle is
overwritten and leaked, never cleared). -/
theorem doubleStart_creates_second_subscription :
    (startTracking true 1 initialState).state = RunState.running ∧
    (startTracking true 1 initialState).activeWatches.length = 1 ∧
    (startTracking true 2 (startTracking true 1 initialState)).activeWatches.length = 2 := by
  rw [startTracking_stopped 1 initialState rfl]
  refine ⟨rfl, rfl, ?_⟩
  rw [startTracking_running 2 _ rfl]
  rfl

/-- C8 (counterexample): the two variants are NOT observationally
identical.  After start → one accepted fix → finish, the TS variant
still reports the finished route from `getRouteCoordinates` while the
JS variant has cleared it. -/
theorem js_ts_finish_route_differs :
    (execTS [Event.start true 1, Event.sample 0 0 10, Event.finish 2]).route =
      [((0 : ℝ), (0 : ℝ))] ∧
    (execJS [Event.start true 1, Event.sample 0 0 10, Event.finish 2]).route = [] ∧
    (execTS [Event.start true 1, Event.sample 0 0 10, Event.finish 2]).route ≠
      (execJS [Event.start true 1, Event.sample 0 0 10, Event.finish 2]).route := by
  have hroute1 : (startTracking true 1 initialState).route = [] := by
    rw [startTracking_stopped 1 initialState rfl]
  have hstate1 : (startTracking true 1 initialState).state = RunState.running := by
    rw [startTracking_stopped 1 initialState rfl]
  have hupd : handlePositionUpdate 0 0 10 (startTracking true 1 initialState) =
      acceptSample 0 0 (startTracking true 1 initialState) :=
    handlePositionUpdate_first 0 0 10 _ (by norm_num [MAX_ACCURACY]) hroute1
  have hroute2 :
      (handlePositionUpdate 0 0 10 (startTracking true 1 initialState)).route =
        [((0 : ℝ), (0 : ℝ))] := by
    rw [hupd]
    show (startTracking true 1 initialState).route ++ [((0 : ℝ), (0 : ℝ))] = _
    rw [hroute1]
    rfl
  have hstate2 :
      (handlePositionUpdate 0 0 10 (startTracking true 1 initialState)).state =
        RunState.running := by
    rw [hupd]
    exact hstate1
  have hTS : (execTS [Event.start true 1, Event.sample 0 0 10, Event.finish 2]).route =
      [((0 : ℝ), (0 : ℝ))] := by
    show (finishRunTS 2 (handlePositionUpdate 0 0 10
      (startTracking true 1 initialState))).route = _
    rw [finishRunTS_route, hroute2]
  have hJS : (execJS [Event.start true 1, Event.sample 0 0 10, Event.finish 2]).route =
      [] := by
    show (finishRunJS 2 (handlePositionUpdate 0 0 10
      (startTracking true 1 initialState))).route = []
    rw [finishRunJS_active 2 _ (state_ne_stopped_of_eq hstate2 (by simp))]
  refine ⟨hTS, hJS, ?_⟩
  rw [hTS, hJS]
  simp

theorem agree_refl (s : TrackerState) : AgreeExceptStoppedRoute s s :=
  ⟨rfl, rfl, rfl, rfl, rfl, rfl, rfl, rfl, rfl, rfl, rfl, rfl, rfl, fun _ => rfl⟩

/-- One synchronized step: from agreeing states, any event keeps the JS
and TS variants agreeing (samples are only delivered while active). -/
theorem agree_step (e : Event) (sj st : TrackerState)
    (hA : AgreeExceptStoppedRoute sj st) (hInv : Inv st)
    (hsam : ∀ lng lat acc, e = Event.sample lng lat acc →
      st.state ≠ RunState.stopped) :
    AgreeExceptStoppedRoute (stepJS sj e) (stepTS st e) := by
  obtain ⟨h1, h2, h3, h4, h5, h6, h7, h8, h9, h10, h11, h12, h13, hroute⟩ := hA
  cases e with
  | start g t =>
    cases g with
    | false => exact ⟨h1, h2, h3, h4, h5, h6, h7, h8, h9, h10, h11, h12, h13, hroute⟩
    | true =>
      show AgreeExceptStoppedRoute (startTracking true t sj) (startTracking true t st)
      cases hs : st.state with
      | stopped =>
        rw [startTracking_stopped t sj (h1.trans hs), startTracking_stopped t st hs]
        refine ⟨rfl, ?_, rfl, rfl, h5, ?_, h7, h8, ?_, ?_, ?_, ?_, h13, fun _ => rfl⟩
        · rw [h10]
        · rw [h11]
        · rw [h9, h10]
        · rw [h10]
        · rw [h11]
        · rw [h12]
      | paused =>
        obtain ⟨p, hp, hpz⟩ := hInv.1 hs
        have hne : st.state ≠ RunState.stopped := by rw [hs]; simp
        have hrr := hroute hne
        rw [startTracking_resume t p sj (h1.trans hs) (h5.trans hp) (by omega),
          startTracking_resume t p st hs hp (by omega)]
        refine ⟨rfl, ?_, h3, ?_, rfl, h6, h7, h8, ?_, ?_, ?_, ?_, h13, fun _ => hrr⟩
        · rw [h10]
        · rw [h4]
        · rw [h9, h10]
        · rw [h10]
        · rw [h11]
        · rw [h12]
      | running =>
        have hne : st.state ≠ RunState.stopped := by rw [hs]; simp
        have hrr := hroute hne
        rw [startTracking_running t sj (h1.trans hs), startTracking_running t st hs]
        refine ⟨rfl, ?_, h3, h4, h5, h6, h7, h8, ?_, ?_, ?_, ?_, h13, fun _ => hrr⟩
        · rw [h10]
        · rw [h9, h10]
        · rw [h10]
        · rw [h11]
        · rw [h12]
  | pause t =>
    show AgreeExceptStoppedRoute (pauseTracking t sj) (pauseTracking t st)
    by_cases hs : st.state = RunState.running
    · have hne : st.state ≠ RunState.stopped := by rw [hs]; simp
      have hrr := hroute hne
      rw [pauseTracking_running t sj (h1.trans hs), pauseTracking_running t st hs]
      refine ⟨rfl, ?_, ?_, ?_, rfl, ?_, ?_, ?_, ?_, ?_, ?_, ?_, ?_, fun _ => ?_⟩
      · rw [cancelWatch_watchId, cancelWatch_watchId]
      · rw [cancelWatch_startTime, cancelWatch_startTime, h3]
      · rw [cancelWatch_pausedTime, cancelWatch_pausedTime, h4]
      · rw [cancelWatch_currentRunId, cancelWatch_currentRunId, h6]
      · rw [cancelWatch_lastPosition, cancelWatch_lastPosition, h7]
      · rw [cancelWatch_savedRuns, cancelWatch_savedRuns, h8]
      · show (cancelWatch sj).activeWatches = (cancelWatch st).activeWatches
        unfold cancelWatch
        rw [h2]
        cases hw : st.watchId <;> simp [h9]
      · rw [cancelWatch_nextWatchId, cancelWatch_nextWatchId, h10]
      · rw [cancelWatch_nextRunId, cancelWatch_nextRunId, h11]
      · rw [cancelWatch_stateEvents, cancelWatch_stateEvents, h12]
      · rw [cancelWatch_distanceEvents, cancelWatch_distanceEvents, h13]
      · show (cancelWatch sj).route = (cancelWatch st).route
        rw [cancelWatch_route, cancelWatch_route, hrr]
    · rw [pauseTracking_not_running t sj (fun hc => hs (h1.symm.trans hc)),
        pauseTracking_not_running t st hs]
      exact ⟨h1, h2, h3, h4, h5, h6, h7, h8, h9, h10, h11, h12, h13, hroute⟩
  | finish t =>
    show AgreeExceptStoppedRoute (finishRunJS t sj) (finishRunTS t st)
    by_cases hs : st.state = RunState.stopped
    · rw [finishRunJS_stopped t sj (h1.trans hs), finishRunTS_stopped t st hs]
      exact ⟨h1, h2, h3, h4, h5, h6, h7, h8, h9, h10, h11, h12, h13, hroute⟩
    · exact finish_agree t sj st
        ⟨h1, h2, h3, h4, h5, h6, h7, h8, h9, h10, h11, h12, h13, hroute⟩
        (hroute hs) hInv hs
  | sample lng lat acc =>
    have hne := hsam lng lat acc rfl
    have hrr := hroute hne
    show AgreeExceptStoppedRoute (handlePositionUpdate lng lat acc sj)
      (handlePositionUpdate lng lat acc st)
    by_cases hacc : MAX_ACCURACY < acc
    · rw [handlePositionUpdate_inaccurate lng lat acc sj hacc,
        handlePositionUpdate_inaccurate lng lat acc st hacc]
      exact ⟨h1, h2, h3, h4, h5, h6, h7, h8, h9, h10, h11, h12, h13, hroute⟩
    · have hacc' := not_lt.mp hacc
      cases hl : st.route.getLast? with
      | none =>
        have hrt : st.route = [] := List.getLast?_eq_none_iff.mp hl
        have hrj : sj.route = [] := by rw [hrr, hrt]
        rw [handlePositionUpdate_first lng lat acc sj hacc' hrj,
          handlePositionUpdate_first lng lat acc st hacc' hrt]
        refine ⟨h1, h2, h3, h4, h5, h6, rfl, h8, h9, h10, h11, h12, ?_, fun _ => ?_⟩
        · show sj.distanceEvents ++ _ = st.distanceEvents ++ _
          rw [h13, hrr]
        · show sj.route ++ _ = st.route ++ _
          rw [hrr]
      | some c0 =>
        have hlj : sj.route.getLast? = some c0 := by rw [hrr]; exact hl
        by_cases hmov : haversineDistance c0 (lng, lat) < MIN_MOVEMENT
        · rw [handlePositionUpdate_jitter lng lat acc c0 sj hacc' hlj hmov,
            handlePositionUpdate_jitter lng lat acc c0 st hacc' hl hmov]
          exact ⟨h1, h2, h3, h4, h5, h6, h7, h8, h9, h10, h11, h12, h13, hroute⟩
        · rw [handlePositionUpdate_accept lng lat acc c0 sj hacc' hlj (not_lt.mp hmov),
            handlePositionUpdate_accept lng lat acc c0 st hacc' hl (not_lt.mp hmov)]
          refine ⟨h1, h2, h3, h4, h5, h6, rfl, h8, h9, h10, h11, h12, ?_, fun _ => ?_⟩
          · show sj.distanceEvents ++ _ = st.distanceEvents ++ _
            rw [h13, hrr]
          · show sj.route ++ _ = st.route ++ _
            rw [hrr]

theorem agree_foldl (es : List Event) :
    ∀ sj st : TrackerState, AgreeExceptStoppedRoute sj st → Inv st →
      EventsOK es → SamplesOnlyActive st es →
      AgreeExceptStoppedRoute (es.foldl stepJS sj) (es.foldl stepTS st) := by
  induction es with
  | nil => intro sj st hA _ _ _; exact hA
  | cons e rest ih =>
    intro sj st hA hInv hok hsa
    refine ih (stepJS sj e) (stepTS st e) ?_ ?_ ?_ hsa.2
    · refine agree_step e sj st hA hInv ?_
      intro lng lat acc he
      have h := hsa.1
      rw [he] at h
      exact h
    · exact inv_stepTS st e hInv (hok e (List.mem_cons_self e rest))
    · exact fun x hx => hok x (List.mem_cons_of_mem e hx)

/-- C8 (amended): for every sane operation trace (positive clock
readings, samples delivered only while the tracker is active), the JS
and TS variants agree on the lifecycle state, elapsed time, last
position, persisted run records and both observer logs; their routes
agree whenever the tracker is not stopped.  They differ only in the
route retained while stopped: the JS variant clears it during `finish`,
the TS variant keeps it until the next fresh `start` (the
counterexample above). -/
theorem js_ts_equivalent_except_stopped_route (es : List Event)
    (hok : EventsOK es) (hsa : SamplesOnlyActive initialState es) :
    (execJS es).state = (execTS es).state ∧
    (∀ now, getElapsedTime now (execJS es) = getElapsedTime now (execTS es)) ∧
    (execJS es).lastPosition = (execTS es).lastPosition ∧
    (execJS es).savedRuns = (execTS es).savedRuns ∧
    (execJS es).stateEvents = (execTS es).stateEvents ∧
    (execJS es).distanceEvents = (execTS es).distanceEvents ∧
    ((execTS es).state ≠ RunState.stopped → (execJS es).route = (execTS es).route) := by
  have hA : AgreeExceptStoppedRoute (execJS es) (execTS es) :=
    agree_foldl es initialState initialState (agree_refl initialState)
      inv_initial hok hsa
  obtain ⟨h1, h2, h3, h4, h5, h6, h7, h8, h9, h10, h11, h12, h13, hroute⟩ := hA
  refine ⟨h1, ?_, h7, h8, h12, h13, hroute⟩
  intro now
  unfold getElapsedTime
  rw [h1, h3, h4, h5]

/-- Witness for the amended C8: a start followed by one in-run sample
keeps both variants in lock-step on the persistence sink. -/
theorem js_ts_equivalent_except_stopped_route_witness :
    (execJS [Event.start true 1, Event.sample 0 0 10]).savedRuns =
      (execTS [Event.start true 1, Event.sample 0 0 10]).savedRuns := by
  have hok : EventsOK [Event.start true 1, Event.sample 0 0 10] := by
    intro e he
    simp only [List.mem_cons, List.mem_singleton] at he
    rcases he with rfl | rfl | h
    · exact zero_lt_one
    · exact trivial
    · exact absurd h (List.not_mem_nil _)
  have hstate1 : (stepTS initialState (Event.start true 1)).state = RunState.running := by
    show (startTracking true 1 initialState).state = RunState.running
    rw [startTracking_stopped 1 initialState rfl]
  have hsa : SamplesOnlyActive initialState [Event.start true 1, Event.sample 0 0 10] := by
    refine ⟨trivial, ?_, trivial⟩
    rw [hstate1]
    simp
  exact (js_ts_equivalent_except_stopped_route
    [Event.start true 1, Event.sample 0 0 10] hok hsa).2.2.2.1

/-- C10: `finishRun` (TS) leaves the route (and hence
`getRouteCoordinates` / `getCurrentDistance`) untouched while the state
becomes `stopped`; the route is only cleared when `startTracking` next
begins a fresh run from `stopped`. -/
theorem ts_finish_keeps_route_until_start (now t : Int) (s : TrackerState) :
    (finishRunTS now s).route = s.route ∧
    getCurrentDistance (finishRunTS now s) = getCurrentDistance s ∧
    (finishRunTS now s).state = RunState.stopped ∧
    (startTracking true t (finishRunTS now s)).route = [] := by
  refine ⟨finishRunTS_route now s, ?_, finishRunTS_state now s, ?_⟩
  · unfold getCurrentDistance getRouteCoordinates
    rw [finishRunTS_route]
  · rw [startTracking_stopped t _ (finishRunTS_state now s)]

end GeoDemo
